import Mathlib

/-!
Verification development for the OTPFlow multi-instance WhatsApp gateway.

The repository has two parallel implementations of the core:
* `server.js` — single-file service with round-robin cursors
  (`personalRoundRobinIndex`, `sharedRoundRobinIndex`) and a 45s
  staleness watchdog in `startSession`;
* the modular variant `dbStore.js` / `rotationEngine.js` /
  `sessionManager.js` — priority-ordered failover without cursors.

Rows of the `whatsapp_instances` table are modelled as `Row`, dates as
naturals (`last_reset_date : Option Nat`, `today : Nat`; the SQL `DATE`
order is the natural order), the in-memory `sessions` map as a function
`String → Option Session`, and the external send outcome as an oracle
`outcome : String → Option String` (`none` = the protocol send resolved,
`some msg` = it threw with error text `msg`).  Columns `last_ping`,
`created_at`, `auth_creds`, `auth_keys` are never read by the rotation /
lifecycle logic under scrutiny and are omitted from `Row`.
-/

namespace OTPFlow

/-- One row of `whatsapp_instances` (the columns the core reads). -/
structure Row where
  id : Nat
  user_id : Nat
  instance_id : String
  phone_number : Option String
  status : String
  is_banned : Bool
  is_company_shared : Bool
  daily_message_limit : Nat
  messages_sent_today : Nat
  last_reset_date : Option Nat
  priority : Nat
deriving DecidableEq, Repr

/-- `dbStore.js` / `server.js` `markBanned`: `SET is_banned = 1, status = 'banned'
WHERE instance_id = ?`. -/
def markBanned (instanceId : String) (table : List Row) : List Row :=
  table.map fun r =>
    if r.instance_id = instanceId then { r with is_banned := true, status := "banned" } else r

/-- `updateInstanceStatus`: `SET status = ?` (and `phone_number = ?` when a
phone number is supplied) `WHERE instance_id = ?`. -/
def updateInstanceStatus (instanceId : String) (status : String)
    (phoneNumber : Option String) (table : List Row) : List Row :=
  table.map fun r =>
    if r.instance_id = instanceId then
      { r with
        status := status
        phone_number := match phoneNumber with | some p => some p | none => r.phone_number }
    else r

/-- The SQL `CASE` of `incrementMessageCount`: new `messages_sent_today` value
(`1` when `last_reset_date IS NULL OR last_reset_date < today`, else `+ 1`). -/
def bumpCount (today : Nat) (r : Row) : Nat :=
  match r.last_reset_date with
  | none => 1
  | some d => if d < today then 1 else r.messages_sent_today + 1

/-- The row-level effect of `incrementMessageCount`'s single `UPDATE`. -/
def incRow (today : Nat) (instanceId : String) (r : Row) : Row :=
  if r.instance_id = instanceId then
    { r with messages_sent_today := bumpCount today r, last_reset_date := some today }
  else r

/-- `dbStore.js` / `server.js` `incrementMessageCount`: one conditional
`UPDATE ... WHERE instance_id = ?`. -/
def incrementMessageCount (today : Nat) (instanceId : String) (table : List Row) : List Row :=
  table.map (incRow today instanceId)

/-- The JS rollover normalization applied to each fetched row:
`(row.last_reset_date && row.last_reset_date >= today) ? row.messages_sent_today : 0`. -/
def effectiveCount (today : Nat) (r : Row) : Nat :=
  match r.last_reset_date with
  | none => 0
  | some d => if today ≤ d then r.messages_sent_today else 0

/-- `{ ...row, messages_sent_today: effectiveCount }`. -/
def normalizeRow (today : Nat) (r : Row) : Row :=
  { r with messages_sent_today := effectiveCount today r }

/-- The `WHERE` clause of `getAvailableInstances`:
`user_id = ? AND status = 'connected' AND is_banned = 0`. -/
def personalWhere (userId : Nat) (r : Row) : Bool :=
  r.user_id == userId && r.status == "connected" && !r.is_banned

/-- The `ORDER BY priority ASC, messages_sent_today ASC` key of
`getAvailableInstances` (on the stored, pre-normalization counter). -/
def personalOrder (a b : Row) : Prop :=
  a.priority < b.priority ∨ (a.priority = b.priority ∧ a.messages_sent_today ≤ b.messages_sent_today)

instance : DecidableRel personalOrder := fun a b => by
  unfold personalOrder; infer_instance

instance : IsTotal Row personalOrder := ⟨by intro a b; unfold personalOrder; omega⟩

instance : IsTrans Row personalOrder := ⟨by intro a b c; unfold personalOrder; omega⟩

/-- The `WHERE` clause of `getAvailableSharedInstances`:
`is_company_shared = 1 AND status = 'connected' AND is_banned = 0`. -/
def sharedWhere (r : Row) : Bool :=
  r.is_company_shared && r.status == "connected" && !r.is_banned

/-- The `ORDER BY messages_sent_today ASC` key of `getAvailableSharedInstances`. -/
def sharedOrder (a b : Row) : Prop :=
  a.messages_sent_today ≤ b.messages_sent_today

instance : DecidableRel sharedOrder := fun a b => by
  unfold sharedOrder; infer_instance

instance : IsTotal Row sharedOrder := ⟨by intro a b; unfold sharedOrder; omega⟩

instance : IsTrans Row sharedOrder := ⟨by intro a b c; unfold sharedOrder; omega⟩

/-- `getAvailableInstances(userId)` (identical in `dbStore.js` and `server.js`):
`SELECT ... WHERE ... ORDER BY priority ASC, messages_sent_today ASC`, then the
JS rollover normalization `map`, then
`.filter(row => row.messages_sent_today < row.daily_message_limit)`.
The SQL sort is modelled as a stable sort of the rows passing the `WHERE`
clause, in table order. -/
def getAvailableInstances (today : Nat) (userId : Nat) (table : List Row) : List Row :=
  (((table.filter (personalWhere userId)).insertionSort personalOrder).map
      (normalizeRow today)).filter
    fun r => r.messages_sent_today < r.daily_message_limit

/-- `getAvailableSharedInstances()` (identical in `dbStore.js` and `server.js`). -/
def getAvailableSharedInstances (today : Nat) (table : List Row) : List Row :=
  (((table.filter sharedWhere).insertionSort sharedOrder).map (normalizeRow today)).filter
    fun r => r.messages_sent_today < r.daily_message_limit

/-- An in-memory session of `server.js`: `{ socket, qr, status, phoneNumber, createdAt }`
(the opaque socket handle is not modelled). -/
structure Session where
  qr : Option String
  status : String
  phoneNumber : Option String
  createdAt : Nat
deriving DecidableEq, Repr

/-- The `sessions` map, `instanceId -> session`. -/
def Registry : Type := String → Option Session

/-- `sessions.set(iid, s)`. -/
def regSet (reg : Registry) (iid : String) (s : Session) : Registry :=
  fun j => if j = iid then some s else reg j

/-- `sessions.delete(iid)`. -/
def regDelete (reg : Registry) (iid : String) : Registry :=
  fun j => if j = iid then none else reg j

/-- The whole mutable state of `server.js`: DB table, `sessions` map and the two
round-robin trackers.  `personalRoundRobinIndex` is modelled as a total map
defaulting to `0`, matching the `if (!has(uId)) set(uId, 0)` initialization. -/
structure SrvState where
  table : List Row
  sessions : Registry
  personalRR : String → Nat
  sharedRR : Nat

/-- The structured result of `sendMsg` / `sendMessage`. -/
structure SendRes where
  success : Bool
  banned : Bool
deriving DecidableEq, Repr

/-- The ban heuristic of `sendMsg` / `sendMessage`:
`err.message?.includes('banned') || err.message?.includes('blocked')`. -/
def classifyBanText (msg : String) : Bool :=
  decide ("banned".data <:+: msg.data) || decide ("blocked".data <:+: msg.data)

/-- `server.js` `sendMsg` = `sessionManager.js` `sendMessage` (same logic): fail
fast unless the registry holds a `connected` session; on a protocol throw whose
text matches the ban heuristic, `markBanned` in the DB and set the in-memory
session status to `banned` (without deleting the registry entry). -/
def sendMsg (outcome : String → Option String) (st : SrvState) (iid : String) :
    SendRes × SrvState :=
  match st.sessions iid with
  | none => (⟨false, false⟩, st)
  | some s =>
    if s.status = "connected" then
      match outcome iid with
      | none => (⟨true, false⟩, st)
      | some msg =>
        if classifyBanText msg then
          (⟨false, true⟩,
            { st with
              table := markBanned iid st.table
              sessions := regSet st.sessions iid { s with status := "banned" } })
        else (⟨false, false⟩, st)
    else (⟨false, false⟩, st)

/-- A rotation result object; absent JS fields are `none`. -/
structure RotResult where
  success : Bool
  all_exhausted : Bool
  instance_id : Option String := none
  instance_db_id : Option Nat := none
  phone_number : Option String := none
  messages_sent_today : Option Nat := none
  daily_limit : Option Nat := none
  rotated : Option Bool := none
deriving DecidableEq, Repr

/-- The `while (attempts < total)` loop of `server.js` `sendWithRotation`,
recursing on the remaining number of attempts (`fuel = total - attempts`). -/
def personalAttempts (outcome : String → Option String) (today : Nat) (uId : String)
    (instL : List Row) (startIndex : Nat) : Nat → Nat → SrvState → RotResult × SrvState
  | _, 0, st => ({ success := false, all_exhausted := true }, st)
  | attempts, fuel + 1, st =>
    let total := instL.length
    let currentIndex := (startIndex + attempts) % total
    match instL[currentIndex]? with
    | none => ({ success := false, all_exhausted := true }, st)
    | some inst =>
      match st.sessions inst.instance_id with
      | some s =>
        if s.status = "connected" then
          let p := sendMsg outcome st inst.instance_id
          if p.1.success then
            ({ success := true, all_exhausted := false
               instance_id := some inst.instance_id
               instance_db_id := some inst.id
               phone_number := inst.phone_number
               messages_sent_today := some (inst.messages_sent_today + 1)
               daily_limit := some inst.daily_message_limit
               rotated := some (decide (1 < total)) },
             { p.2 with
               table := incrementMessageCount today inst.instance_id p.2.table
               personalRR := fun v =>
                 if v = uId then (currentIndex + 1) % total else p.2.personalRR v })
          else personalAttempts outcome today uId instL startIndex (attempts + 1) fuel p.2
        else personalAttempts outcome today uId instL startIndex (attempts + 1) fuel st
      | none => personalAttempts outcome today uId instL startIndex (attempts + 1) fuel st

/-- `server.js` `sendWithRotation(userId, ...)`: fetch candidates, start at the
per-user cursor, advance the cursor only after a successful send. -/
def sendWithRotation (outcome : String → Option String) (today : Nat) (userId : Nat)
    (st : SrvState) : RotResult × SrvState :=
  let instL := getAvailableInstances today userId st.table
  if instL.length = 0 then ({ success := false, all_exhausted := true }, st)
  else
    let uId := toString userId
    personalAttempts outcome today uId instL (st.personalRR uId) 0 instL.length st

/-- The `while` loop of `server.js` `sendWithSharedRotation`; on success the
result carries only `instance_id`, `instance_db_id` and `phone_number`. -/
def sharedAttempts (outcome : String → Option String) (today : Nat)
    (instL : List Row) (startIndex : Nat) : Nat → Nat → SrvState → RotResult × SrvState
  | _, 0, st => ({ success := false, all_exhausted := true }, st)
  | attempts, fuel + 1, st =>
    let total := instL.length
    let currentIndex := (startIndex + attempts) % total
    match instL[currentIndex]? with
    | none => ({ success := false, all_exhausted := true }, st)
    | some inst =>
      match st.sessions inst.instance_id with
      | some s =>
        if s.status = "connected" then
          let p := sendMsg outcome st inst.instance_id
          if p.1.success then
            ({ success := true, all_exhausted := false
               instance_id := some inst.instance_id
               instance_db_id := some inst.id
               phone_number := inst.phone_number },
             { p.2 with
               table := incrementMessageCount today inst.instance_id p.2.table
               sharedRR := (currentIndex + 1) % total })
          else sharedAttempts outcome today instL startIndex (attempts + 1) fuel p.2
        else sharedAttempts outcome today instL startIndex (attempts + 1) fuel st
      | none => sharedAttempts outcome today instL startIndex (attempts + 1) fuel st

/-- `server.js` `sendWithSharedRotation`. -/
def sendWithSharedRotation (outcome : String → Option String) (today : Nat)
    (st : SrvState) : RotResult × SrvState :=
  let instL := getAvailableSharedInstances today st.table
  if instL.length = 0 then ({ success := false, all_exhausted := true }, st)
  else sharedAttempts outcome today instL st.sharedRR 0 instL.length st

/-- Iterated shared-rotation requests; returns the final state and, per request
in order, the `instance_id` field of that request's result. -/
def sharedRun (outcome : String → Option String) (today : Nat) :
    Nat → SrvState → SrvState × List (Option String)
  | 0, st => (st, [])
  | n + 1, st =>
    let p := sendWithSharedRotation outcome today st
    let q := sharedRun outcome today n p.2
    (q.1, p.1.instance_id :: q.2)

/-- What `startSession` decided to do with the registry. -/
inductive StartOutcome where
  | returnedExisting (s : Session)
  | startedFresh (terminatedOld : Bool)
deriving DecidableEq, Repr

/-- The session object freshly created by `startSession`:
`{ socket: null, qr: null, status: 'connecting', phoneNumber: null, createdAt: Date.now() }`. -/
def freshSession (now : Nat) : Session :=
  { qr := none, status := "connecting", phoneNumber := none, createdAt := now }

/-- The registry-visible decision logic of `server.js` `startSession` (lines
203-218): return a `connected` session unchanged; return a `connecting` /
`qr_ready` session younger than 45s unchanged; force-terminate and replace a
stale one; otherwise register a fresh `connecting` session. -/
def startSession (now : Nat) (reg : Registry) (iid : String) : StartOutcome × Registry :=
  match reg iid with
  | some existing =>
    if existing.status = "connected" then (.returnedExisting existing, reg)
    else if existing.status = "connecting" ∨ existing.status = "qr_ready" then
      if now - existing.createdAt < 45000 then (.returnedExisting existing, reg)
      else (.startedFresh true, regSet (regDelete reg iid) iid (freshSession now))
    else (.startedFresh false, regSet reg iid (freshSession now))
  | none => (.startedFresh false, regSet reg iid (freshSession now))

/-- Result summary of one `connection.update` close event. -/
structure CloseResult where
  finalStatus : String
  reconnectDelayMs : Option Nat
deriving DecidableEq, Repr

/-- The effective close code:
`lastDisconnect?.error?.output?.statusCode || 500` (JS falsy fallback). -/
def closeCode (statusCode : Option Nat) : Nat :=
  match statusCode with | none => 500 | some c => if c = 0 then 500 else c

/-- The `connection === 'close'` branch of the `server.js` handler (lines
258-278).  `loggedOut` stands for the external constant
`DisconnectReason.loggedOut`.  Ban codes `401`/`403` delete the registry entry
and `markBanned`; the logged-out code deletes the entry and persists
`disconnected`; anything else keeps the registry entry with status
`reconnecting`, persists `reconnecting` and schedules `startSession` after
5000 ms. -/
def handleClose (loggedOut : Nat) (statusCode : Option Nat) (iid : String) (s : Session)
    (reg : Registry) (table : List Row) : CloseResult × Registry × List Row :=
  let code := closeCode statusCode
  if code = 401 ∨ code = 403 then
    ({ finalStatus := "banned", reconnectDelayMs := none }, regDelete reg iid,
      markBanned iid table)
  else if code = loggedOut then
    ({ finalStatus := "disconnected", reconnectDelayMs := none }, regDelete reg iid,
      updateInstanceStatus iid "disconnected" none table)
  else
    ({ finalStatus := "reconnecting", reconnectDelayMs := some 5000 },
      regSet reg iid { s with status := "reconnecting" },
      updateInstanceStatus iid "reconnecting" none table)

namespace SM

/-- A `sessionManager.js` session: `{ socket, qr, status, phoneNumber }` — note:
no `createdAt` field, hence no staleness watchdog. -/
structure SMSession where
  qr : Option String
  status : String
  phoneNumber : Option String
deriving DecidableEq, Repr

/-- The registry-visible decision logic of `sessionManager.js` `startSession`
(lines 18-28): an existing session is returned unchanged only when its status
is `connected` or `connecting`; any other status — including a fresh
`qr_ready` session — is silently overwritten by a new `connecting` session. -/
def startSession (reg : String → Option SMSession) (iid : String) :
    StartOutcome × (String → Option SMSession) :=
  match reg iid with
  | some existing =>
    if existing.status = "connected" ∨ existing.status = "connecting" then
      (.returnedExisting { qr := existing.qr, status := existing.status,
                           phoneNumber := existing.phoneNumber, createdAt := 0 }, reg)
    else
      (.startedFresh false,
        fun j => if j = iid then
          some { qr := none, status := "connecting", phoneNumber := none } else reg j)
  | none =>
    (.startedFresh false,
      fun j => if j = iid then
        some { qr := none, status := "connecting", phoneNumber := none } else reg j)

end SM

namespace Engine

/-- The `for (const instance of instances)` failover loop of
`rotationEngine.js` `sendWithRotation` (lines 313-347): try candidates in list
order, skip candidates whose registry session is not `connected`, stop at the
first successful send; `rotated` compares the winner with `instances[0]`. -/
def failoverLoop (outcome : String → Option String) (today : Nat) (firstId : String) :
    List Row → SrvState → RotResult × SrvState
  | [], st => ({ success := false, all_exhausted := true }, st)
  | inst :: rest, st =>
    match st.sessions inst.instance_id with
    | some s =>
      if s.status = "connected" then
        let p := sendMsg outcome st inst.instance_id
        if p.1.success then
          ({ success := true, all_exhausted := false
             instance_id := some inst.instance_id
             instance_db_id := some inst.id
             phone_number := inst.phone_number
             messages_sent_today := some (inst.messages_sent_today + 1)
             daily_limit := some inst.daily_message_limit
             rotated := some (firstId != inst.instance_id) },
           { p.2 with table := incrementMessageCount today inst.instance_id p.2.table })
        else failoverLoop outcome today firstId rest p.2
      else failoverLoop outcome today firstId rest st
    | none => failoverLoop outcome today firstId rest st

/-- `rotationEngine.js` `sendWithRotation(userId, ...)`. -/
def sendWithRotation (outcome : String → Option String) (today : Nat) (userId : Nat)
    (st : SrvState) : RotResult × SrvState :=
  match getAvailableInstances today userId st.table with
  | [] => ({ success := false, all_exhausted := true }, st)
  | first :: rest =>
    failoverLoop outcome today first.instance_id (first :: rest) st

end Engine

/-! ### Helper lemmas -/

theorem effectiveCount_of_none {today : Nat} {r : Row} (h : r.last_reset_date = none) :
    effectiveCount today r = 0 := by
  simp [effectiveCount, h]

theorem effectiveCount_of_old {today d : Nat} {r : Row} (h : r.last_reset_date = some d)
    (hd : d < today) : effectiveCount today r = 0 := by
  simp [effectiveCount, h, Nat.not_le.2 hd]

theorem effectiveCount_of_fresh {today d : Nat} {r : Row} (h : r.last_reset_date = some d)
    (hd : today ≤ d) : effectiveCount today r = r.messages_sent_today := by
  simp [effectiveCount, h, hd]

theorem normalizeRow_count (today : Nat) (r : Row) :
    (normalizeRow today r).messages_sent_today = effectiveCount today r := rfl

theorem normalizeRow_limit (today : Nat) (r : Row) :
    (normalizeRow today r).daily_message_limit = r.daily_message_limit := rfl

/-- Every personal candidate is the normalization of a table row that passes the
quota check on its effective counter. -/
theorem mem_getAvailableInstances {today userId : Nat} {table : List Row} {r : Row}
    (hr : r ∈ getAvailableInstances today userId table) :
    ∃ r0 ∈ table, r = normalizeRow today r0 ∧
      effectiveCount today r0 < r0.daily_message_limit := by
  unfold getAvailableInstances at hr
  rw [List.mem_filter] at hr
  obtain ⟨hm, hlt⟩ := hr
  rw [List.mem_map] at hm
  obtain ⟨r0, hr0, rfl⟩ := hm
  rw [List.mem_insertionSort, List.mem_filter] at hr0
  refine ⟨r0, hr0.1, rfl, ?_⟩
  simpa [normalizeRow] using hlt

/-- Every shared candidate is the normalization of a table row that passes the
quota check on its effective counter. -/
theorem mem_getAvailableSharedInstances {today : Nat} {table : List Row} {r : Row}
    (hr : r ∈ getAvailableSharedInstances today table) :
    ∃ r0 ∈ table, r = normalizeRow today r0 ∧
      effectiveCount today r0 < r0.daily_message_limit := by
  unfold getAvailableSharedInstances at hr
  rw [List.mem_filter] at hr
  obtain ⟨hm, hlt⟩ := hr
  rw [List.mem_map] at hm
  obtain ⟨r0, hr0, rfl⟩ := hm
  rw [List.mem_insertionSort, List.mem_filter] at hr0
  refine ⟨r0, hr0.1, rfl, ?_⟩
  simpa [normalizeRow] using hlt

/-! ### C1 -/

/-- C1: for every user scope and for the shared pool, an instance whose
effective used-today after rollover normalization is at least its daily limit
never appears in the candidate list built by `getAvailableInstances` /
`getAvailableSharedInstances`: every candidate is the normalization of a table
row whose effective counter is strictly below its limit. -/
theorem c1_no_over_quota_candidate (today userId : Nat) (table : List Row) :
    (∀ r ∈ getAvailableInstances today userId table,
      ∃ r0 ∈ table, r = normalizeRow today r0 ∧
        effectiveCount today r0 < r0.daily_message_limit) ∧
    (∀ r ∈ getAvailableSharedInstances today table,
      ∃ r0 ∈ table, r = normalizeRow today r0 ∧
        effectiveCount today r0 < r0.daily_message_limit) :=
  ⟨fun _ hr => mem_getAvailableInstances hr, fun _ hr => mem_getAvailableSharedInstances hr⟩

/-- A concrete connected shared row under quota, used by witnesses. -/
def wRow : Row :=
  { id := 1, user_id := 7, instance_id := "w1", phone_number := some "111"
    status := "connected", is_banned := false, is_company_shared := true
    daily_message_limit := 50, messages_sent_today := 3, last_reset_date := some 5
    priority := 1 }

theorem c1_no_over_quota_candidate_witness :
    ∃ r0 ∈ [wRow], normalizeRow 5 wRow = normalizeRow 5 r0 ∧
      effectiveCount 5 r0 < r0.daily_message_limit :=
  (c1_no_over_quota_candidate 5 7 [wRow]).1 (normalizeRow 5 wRow) (by decide)

/-! ### C2 -/

/-- C2: candidate construction treats a row whose `last_reset_date` is `null`
or strictly before today as having effective used-today `0`, and a row whose
`last_reset_date` is today or later as keeping its stored counter unchanged;
every candidate in either list is exactly such a normalization of a table
row. -/
theorem c2_rollover_normalization (today userId : Nat) (table : List Row) :
    ∀ c ∈ getAvailableInstances today userId table ++ getAvailableSharedInstances today table,
      ∃ r0 ∈ table, c = normalizeRow today r0 ∧
        (r0.last_reset_date = none → c.messages_sent_today = 0) ∧
        (∀ d, r0.last_reset_date = some d → d < today → c.messages_sent_today = 0) ∧
        (∀ d, r0.last_reset_date = some d → today ≤ d →
          c.messages_sent_today = r0.messages_sent_today) := by
  intro c hc
  have htrace : ∃ r0 ∈ table, c = normalizeRow today r0 ∧
      effectiveCount today r0 < r0.daily_message_limit := by
    rcases List.mem_append.1 hc with h | h
    · exact mem_getAvailableInstances h
    · exact mem_getAvailableSharedInstances h
  obtain ⟨r0, hr0, rfl, _⟩ := htrace
  refine ⟨r0, hr0, rfl, ?_, ?_, ?_⟩
  · intro hn; rw [normalizeRow_count, effectiveCount_of_none hn]
  · intro d hd hlt; rw [normalizeRow_count, effectiveCount_of_old hd hlt]
  · intro d hd hle; rw [normalizeRow_count, effectiveCount_of_fresh hd hle]

theorem c2_rollover_normalization_witness :
    ∃ r0 ∈ [wRow], normalizeRow 5 wRow = normalizeRow 5 r0 ∧
      (r0.last_reset_date = none → (normalizeRow 5 wRow).messages_sent_today = 0) ∧
      (∀ d, r0.last_reset_date = some d → d < 5 →
        (normalizeRow 5 wRow).messages_sent_today = 0) ∧
      (∀ d, r0.last_reset_date = some d → 5 ≤ d →
        (normalizeRow 5 wRow).messages_sent_today = r0.messages_sent_today) :=
  c2_rollover_normalization 5 7 [wRow] (normalizeRow 5 wRow) (by decide)

/-! ### C9 -/

/-- C9: `incrementMessageCount(id)` is one conditional per-row update: on the
row with matching `instance_id`, `messages_sent_today` becomes `1` when
`last_reset_date` is `null` or strictly older than today and the previous value
plus one otherwise, `last_reset_date` becomes today, and every other column of
the row is unchanged; rows with a different `instance_id` are untouched. -/
theorem c9_increment_single_conditional_update (today : Nat) (iid : String) (table : List Row) :
    incrementMessageCount today iid table = table.map (incRow today iid) ∧
    (∀ r : Row, r.instance_id ≠ iid → incRow today iid r = r) ∧
    (∀ r : Row, r.instance_id = iid →
      (incRow today iid r).last_reset_date = some today ∧
      (r.last_reset_date = none → (incRow today iid r).messages_sent_today = 1) ∧
      (∀ d, r.last_reset_date = some d → d < today →
        (incRow today iid r).messages_sent_today = 1) ∧
      (∀ d, r.last_reset_date = some d → today ≤ d →
        (incRow today iid r).messages_sent_today = r.messages_sent_today + 1) ∧
      (incRow today iid r).id = r.id ∧
      (incRow today iid r).user_id = r.user_id ∧
      (incRow today iid r).instance_id = r.instance_id ∧
      (incRow today iid r).phone_number = r.phone_number ∧
      (incRow today iid r).status = r.status ∧
      (incRow today iid r).is_banned = r.is_banned ∧
      (incRow today iid r).is_company_shared = r.is_company_shared ∧
      (incRow today iid r).daily_message_limit = r.daily_message_limit ∧
      (incRow today iid r).priority = r.priority) := by
  refine ⟨rfl, ?_, ?_⟩
  · intro r h; simp [incRow, h]
  · intro r h
    simp only [incRow, if_pos h]
    refine ⟨trivial, ?_, ?_, ?_, trivial, trivial, trivial, trivial, trivial, trivial,
      trivial, trivial, trivial⟩
    · intro hn; simp [bumpCount, hn]
    · intro d hd hlt; simp [bumpCount, hd, hlt]
    · intro d hd hle; simp [bumpCount, hd, Nat.not_lt.2 hle]

theorem c9_increment_single_conditional_update_witness :
    (incRow 5 "w1" wRow).last_reset_date = some 5 ∧
    (incRow 5 "w1" wRow).messages_sent_today = wRow.messages_sent_today + 1 :=
  ⟨((c9_increment_single_conditional_update 5 "w1" []).2.2 wRow rfl).1,
    ((c9_increment_single_conditional_update 5 "w1" []).2.2 wRow rfl).2.2.2.1 5 rfl
      (by decide)⟩

/-! ### C5 -/

/-- A fresh `qr_ready` session of the modular session manager. -/
def smQrSession : SM.SMSession :=
  { qr := some "QRDATA", status := "qr_ready", phoneNumber := none }

/-- A registry of the modular session manager holding only `smQrSession`. -/
def smQrReg : String → Option SM.SMSession :=
  fun j => if j = "x" then some smQrSession else none

/-- C5 counterexample: `sessionManager.js` `startSession` does not return a
fresh `qr_ready` session unchanged — it immediately overwrites it with a new
`connecting` session (there is no 45s staleness window in this variant at
all), contradicting the claim for the cited `sessionManager.js` lines. -/
theorem c5_counterexample :
    smQrReg "x" = some smQrSession ∧ smQrSession.status = "qr_ready" ∧
    (SM.startSession smQrReg "x").1 = .startedFresh false ∧
    (SM.startSession smQrReg "x").2 "x"
      = some { qr := none, status := "connecting", phoneNumber := none } := by
  refine ⟨rfl, rfl, rfl, rfl⟩

/-- C5 (amended): the claimed idempotence holds for `server.js` `startSession`:
a `connected` session is returned unchanged; a `connecting`/`qr_ready` session
younger than 45s is returned unchanged with no duplicate connect; a
`connecting`/`qr_ready` session at or past 45s is terminated and replaced by a
freshly created `connecting` session.  The `sessionManager.js` variant instead
returns `connected`/`connecting` sessions unchanged regardless of age and
overwrites a `qr_ready` session immediately. -/
theorem c5_start_session_idempotent (now : Nat) (reg : Registry) (iid : String) (s : Session)
    (hs : reg iid = some s) :
    (s.status = "connected" → startSession now reg iid = (.returnedExisting s, reg)) ∧
    ((s.status = "connecting" ∨ s.status = "qr_ready") → now - s.createdAt < 45000 →
      startSession now reg iid = (.returnedExisting s, reg)) ∧
    ((s.status = "connecting" ∨ s.status = "qr_ready") → 45000 ≤ now - s.createdAt →
      (startSession now reg iid).1 = .startedFresh true ∧
      (startSession now reg iid).2 iid = some (freshSession now)) := by
  refine ⟨?_, ?_, ?_⟩
  · intro hconn
    simp [startSession, hs, hconn]
  · intro hst hage
    rcases hst with h | h <;> simp [startSession, hs, h, hage]
  · intro hst hage
    have hage2 : ¬ now - s.createdAt < 45000 := Nat.not_lt.2 hage
    rcases hst with h | h <;> simp [startSession, hs, h, hage2, regSet]

/-- A concrete young `connecting` session and singleton registry. -/
def wSession : Session :=
  { qr := none, status := "connecting", phoneNumber := none, createdAt := 0 }

def wReg : Registry := fun j => if j = "x" then some wSession else none

theorem c5_start_session_idempotent_witness :
    startSession 1000 wReg "x" = (.returnedExisting wSession, wReg) :=
  (c5_start_session_idempotent 1000 wReg "x" wSession rfl).2.1 (Or.inl rfl) (by decide)

/-! ### C6 -/

/-- A connected session used by the close-event scenarios. -/
def cSession : Session :=
  { qr := none, status := "connected", phoneNumber := some "222", createdAt := 0 }

def cReg : Registry := fun j => if j = "y" then some cSession else none

/-- C6 counterexample: a close with code `500` (any non-ban, non-logout code)
sets status `reconnecting`, persists it and schedules a 5s reconnect, but does
NOT remove the session from the registry: `sessions.get` still returns the
session (now `reconnecting`) right after the handler, contradicting the
claim's "removes the session state". -/
theorem c6_counterexample :
    (handleClose 428 (some 500) "y" cSession cReg []).1
      = { finalStatus := "reconnecting", reconnectDelayMs := some 5000 } ∧
    (handleClose 428 (some 500) "y" cSession cReg []).2.1 "y"
      = some { cSession with status := "reconnecting" } ∧
    (handleClose 428 (some 500) "y" cSession cReg []).2.1 "y" ≠ none := by
  refine ⟨rfl, rfl, by simp [handleClose, closeCode, regSet]⟩

/-- The `connection === 'close'` branch of the `sessionManager.js` handler
(lines 72-101).  No falsy fallback is applied to the status code here; the
ban-indicating set is `401`/`403`/`515`, so — unlike `server.js`, which
routes `515` to `reconnecting` — a `515` close is terminal in this variant:
the ban flag is persisted and the registry entry deleted. -/
def SM.handleClose (loggedOut : Nat) (statusCode : Option Nat) (iid : String)
    (s : SM.SMSession) (reg : String → Option SM.SMSession) (table : List Row) :
    CloseResult × (String → Option SM.SMSession) × List Row :=
  if statusCode = some 401 ∨ statusCode = some 403 ∨ statusCode = some 515 then
    ({ finalStatus := "banned", reconnectDelayMs := none },
      fun j => if j = iid then none else reg j, markBanned iid table)
  else if statusCode = some loggedOut then
    ({ finalStatus := "disconnected", reconnectDelayMs := none },
      fun j => if j = iid then none else reg j,
      updateInstanceStatus iid "disconnected" none table)
  else
    ({ finalStatus := "reconnecting", reconnectDelayMs := some 5000 },
      fun j => if j = iid then some { s with status := "reconnecting" } else reg j,
      updateInstanceStatus iid "reconnecting" none table)

/-- C6 (amended): classification of a delivered close event, for both cited
handlers, with the external constant `DisconnectReason.loggedOut` assumed
distinct from each handler's ban-indicating codes (the spec's error taxonomy
keeps the classes disjoint).  A ban-indicating close code — `401`/`403` for
the `server.js` handler, `401`/`403`/`515` for the `sessionManager.js`
handler — sets status `banned`, persists the ban flag and removes the session
from the registry; the logged-out code sets and persists `disconnected` and
removes the session; every other close sets and persists `reconnecting` and
schedules `startSession` after a fixed 5000 ms delay, but LEAVES the session
in the registry with status `reconnecting` rather than removing it (the entry
is only replaced when the delayed `startSession` runs). -/
theorem c6_close_event_classification (loggedOut : Nat) (statusCode : Option Nat)
    (iid : String) (s : Session) (s2 : SM.SMSession) (reg : Registry)
    (reg2 : String → Option SM.SMSession) (table : List Row)
    (hlo1 : loggedOut ≠ 401) (hlo2 : loggedOut ≠ 403) (hlo3 : loggedOut ≠ 515) :
    (closeCode statusCode = 401 ∨ closeCode statusCode = 403 →
      handleClose loggedOut statusCode iid s reg table
        = ({ finalStatus := "banned", reconnectDelayMs := none }, regDelete reg iid,
            markBanned iid table)) ∧
    (closeCode statusCode = loggedOut →
      handleClose loggedOut statusCode iid s reg table
        = ({ finalStatus := "disconnected", reconnectDelayMs := none }, regDelete reg iid,
            updateInstanceStatus iid "disconnected" none table)) ∧
    (closeCode statusCode ≠ 401 → closeCode statusCode ≠ 403 →
      closeCode statusCode ≠ loggedOut →
      handleClose loggedOut statusCode iid s reg table
        = ({ finalStatus := "reconnecting", reconnectDelayMs := some 5000 },
            regSet reg iid { s with status := "reconnecting" },
            updateInstanceStatus iid "reconnecting" none table) ∧
      (handleClose loggedOut statusCode iid s reg table).2.1 iid
        = some { s with status := "reconnecting" }) ∧
    (statusCode = some 401 ∨ statusCode = some 403 ∨ statusCode = some 515 →
      SM.handleClose loggedOut statusCode iid s2 reg2 table
        = ({ finalStatus := "banned", reconnectDelayMs := none },
            fun j => if j = iid then none else reg2 j, markBanned iid table) ∧
      (SM.handleClose loggedOut statusCode iid s2 reg2 table).2.1 iid = none) ∧
    (statusCode = some loggedOut →
      SM.handleClose loggedOut statusCode iid s2 reg2 table
        = ({ finalStatus := "disconnected", reconnectDelayMs := none },
            fun j => if j = iid then none else reg2 j,
            updateInstanceStatus iid "disconnected" none table)) ∧
    (statusCode ≠ some 401 → statusCode ≠ some 403 → statusCode ≠ some 515 →
      statusCode ≠ some loggedOut →
      SM.handleClose loggedOut statusCode iid s2 reg2 table
        = ({ finalStatus := "reconnecting", reconnectDelayMs := some 5000 },
            fun j => if j = iid then some { s2 with status := "reconnecting" } else reg2 j,
            updateInstanceStatus iid "reconnecting" none table) ∧
      (SM.handleClose loggedOut statusCode iid s2 reg2 table).2.1 iid
        = some { s2 with status := "reconnecting" }) := by
  refine ⟨?_, ?_, ?_, ?_, ?_, ?_⟩
  · intro hban
    simp [handleClose, hban]
  · intro hlo
    have hb : ¬ (closeCode statusCode = 401 ∨ closeCode statusCode = 403) := by
      rintro (h | h)
      · exact hlo1 (by rw [← hlo, h])
      · exact hlo2 (by rw [← hlo, h])
    simp [handleClose, hb, hlo, hlo1, hlo2]
  · intro h1 h2 h3
    have hb : ¬ (closeCode statusCode = 401 ∨ closeCode statusCode = 403) := by
      rintro (h | h) <;> [exact h1 h; exact h2 h]
    constructor
    · simp [handleClose, hb, h3]
    · simp [handleClose, hb, h3, regSet]
  · intro hban
    constructor
    · unfold SM.handleClose
      rw [if_pos hban]
    · unfold SM.handleClose
      rw [if_pos hban]
      simp
  · intro hlo
    have hb : ¬ (statusCode = some 401 ∨ statusCode = some 403 ∨ statusCode = some 515) := by
      rw [hlo]
      simp [hlo1, hlo2, hlo3]
    unfold SM.handleClose
    rw [if_neg hb, if_pos hlo]
  · intro h1 h2 h3 h4
    have hb : ¬ (statusCode = some 401 ∨ statusCode = some 403 ∨ statusCode = some 515) := by
      rintro (h | h | h)
      · exact h1 h
      · exact h2 h
      · exact h3 h
    constructor
    · unfold SM.handleClose
      rw [if_neg hb, if_neg h4]
    · unfold SM.handleClose
      rw [if_neg hb, if_neg h4]
      simp

theorem c6_close_event_classification_witness :
    handleClose 428 (some 403) "y" cSession cReg []
      = ({ finalStatus := "banned", reconnectDelayMs := none }, regDelete cReg "y",
          markBanned "y" []) ∧
    (handleClose 428 (some 515) "y" cSession cReg []).2.1 "y"
      = some { cSession with status := "reconnecting" } ∧
    (SM.handleClose 428 (some 515) "x" smQrSession smQrReg []).2.1 "x" = none ∧
    (SM.handleClose 428 (some 500) "x" smQrSession smQrReg []).2.1 "x"
      = some { smQrSession with status := "reconnecting" } :=
  ⟨(c6_close_event_classification 428 (some 403) "y" cSession smQrSession cReg smQrReg []
      (by decide) (by decide) (by decide)).1 (by decide),
    ((c6_close_event_classification 428 (some 515) "y" cSession smQrSession cReg smQrReg []
      (by decide) (by decide) (by decide)).2.2.1 (by decide) (by decide) (by decide)).2,
    ((c6_close_event_classification 428 (some 515) "x" cSession smQrSession cReg smQrReg []
      (by decide) (by decide) (by decide)).2.2.2.1 (by decide)).2,
    ((c6_close_event_classification 428 (some 500) "x" cSession smQrSession cReg smQrReg []
      (by decide) (by decide) (by decide)).2.2.2.2.2 (by decide) (by decide) (by decide)
      (by decide)).2⟩

/-! ### C10 -/

/-- C10: when a send attempt fails and the error text matches the ban
heuristic, `sendMessage`/`sendMsg` marks the instance banned in the DB and
sets the in-memory session status to `banned`, but does not delete the
registry entry — `getSession(id)` afterwards still returns a session object
(with status `banned`), unlike the close-event ban handling, which deletes the
registry entry. -/
theorem c10_send_ban_keeps_registry_entry (outcome : String → Option String) (st : SrvState)
    (iid : String) (s : Session) (msg : String) (lo : Nat) (reg2 : Registry)
    (table2 : List Row)
    (hs : st.sessions iid = some s) (hconn : s.status = "connected")
    (hout : outcome iid = some msg) (hban : classifyBanText msg = true) :
    (sendMsg outcome st iid).1 = ⟨false, true⟩ ∧
    (sendMsg outcome st iid).2.sessions iid = some { s with status := "banned" } ∧
    (sendMsg outcome st iid).2.table = markBanned iid st.table ∧
    (handleClose lo (some 403) iid s reg2 table2).2.1 iid = none := by
  refine ⟨?_, ?_, ?_, ?_⟩ <;>
    simp [sendMsg, hs, hconn, hout, hban, regSet, handleClose, closeCode, regDelete]

/-- A concrete server state with a single connected session `"x"`. -/
def wSrvState : SrvState :=
  { table := [wRow]
    sessions := fun j => if j = "x" then some cSession else none
    personalRR := fun _ => 0
    sharedRR := 0 }

theorem c10_send_ban_keeps_registry_entry_witness :
    (sendMsg (fun _ => some "account was banned by provider") wSrvState "x").1
      = ⟨false, true⟩ ∧
    (sendMsg (fun _ => some "account was banned by provider") wSrvState "x").2.sessions "x"
      = some { cSession with status := "banned" } ∧
    (sendMsg (fun _ => some "account was banned by provider") wSrvState "x").2.table
      = markBanned "x" wSrvState.table ∧
    (handleClose 428 (some 403) "x" cSession cReg []).2.1 "x" = none :=
  c10_send_ban_keeps_registry_entry (fun _ => some "account was banned by provider")
    wSrvState "x" cSession "account was banned by provider" 428 cReg [] rfl rfl rfl (by decide)

/-! ### C7 -/

/-- Priority 1, stored counter 30, last reset *yesterday* (effective 0). -/
def c7u : Row :=
  { id := 1, user_id := 7, instance_id := "u", phone_number := some "100"
    status := "connected", is_banned := false, is_company_shared := false
    daily_message_limit := 50, messages_sent_today := 30, last_reset_date := some 0
    priority := 1 }

/-- Priority 1, stored counter 5, last reset *today* (effective 5). -/
def c7v : Row :=
  { id := 2, user_id := 7, instance_id := "v", phone_number := some "200"
    status := "connected", is_banned := false, is_company_shared := false
    daily_message_limit := 50, messages_sent_today := 5, last_reset_date := some 1
    priority := 1 }

/-- C7 counterexample: with equal priorities, the SQL sorts by the *stored*
counter (v: 5 before u: 30), but after rollover normalization u's effective
used-today is 0 while v's is 5, so the candidate list handed to the failover
loop is NOT sorted by post-normalization used-today within equal priority:
the list is [v (effective 5), u (effective 0)]. -/
theorem c7_counterexample :
    ((getAvailableInstances 1 7 [c7u, c7v]).map
        fun r => (r.instance_id, r.priority, r.messages_sent_today))
      = [("v", 1, 5), ("u", 1, 0)] ∧
    ¬ (getAvailableInstances 1 7 [c7u, c7v]).Pairwise personalOrder := by
  exact ⟨by decide, by decide⟩

/-- C7 (amended): the candidate list handed to the owner-scoped failover loop
is sorted by priority ascending, then by *stored pre-normalization* used-today
ascending, ties broken by stable original listing order; normalization and the
quota filter preserve that order (so the final list is still
priority-ascending), but within equal priority the order follows the stored
counters, which can differ from post-normalization effective used-today order
when a rollover applies. -/
theorem c7_priority_failover_order (today userId : Nat) (table : List Row) :
    ((table.filter (personalWhere userId)).insertionSort personalOrder).Pairwise
      personalOrder ∧
    (∀ a b : Row, List.Sublist [a, b] (table.filter (personalWhere userId)) →
      personalOrder a b →
      List.Sublist [a, b]
        ((table.filter (personalWhere userId)).insertionSort personalOrder)) ∧
    getAvailableInstances today userId table
      = (((table.filter (personalWhere userId)).insertionSort personalOrder).map
          (normalizeRow today)).filter
        (fun r => r.messages_sent_today < r.daily_message_limit) ∧
    (getAvailableInstances today userId table).Pairwise
      (fun a b => a.priority ≤ b.priority) := by
  refine ⟨List.sorted_insertionSort personalOrder _,
    fun a b h hab => List.pair_sublist_insertionSort hab h, rfl, ?_⟩
  have hsorted : ((table.filter (personalWhere userId)).insertionSort personalOrder).Pairwise
      personalOrder := List.sorted_insertionSort personalOrder _
  have hmap : ((((table.filter (personalWhere userId)).insertionSort personalOrder)).map
      (normalizeRow today)).Pairwise (fun a b : Row => a.priority ≤ b.priority) := by
    refine hsorted.map (normalizeRow today) ?_
    intro a b hab
    rcases hab with h | h
    · exact Nat.le_of_lt h
    · exact Nat.le_of_eq h.1
  exact hmap.sublist (List.filter_sublist _)

/-- Two rows with identical sort keys (priority and stored counter), to
exercise the stable tie-break clause. -/
def c7wA : Row :=
  { id := 3, user_id := 7, instance_id := "wa", phone_number := none
    status := "connected", is_banned := false, is_company_shared := false
    daily_message_limit := 50, messages_sent_today := 5, last_reset_date := some 1
    priority := 1 }

def c7wB : Row :=
  { id := 4, user_id := 7, instance_id := "wb", phone_number := none
    status := "connected", is_banned := false, is_company_shared := false
    daily_message_limit := 50, messages_sent_today := 5, last_reset_date := some 1
    priority := 1 }

theorem c7_priority_failover_order_witness :
    List.Sublist [c7wA, c7wB]
      (([c7wA, c7wB].filter (personalWhere 7)).insertionSort personalOrder) :=
  (c7_priority_failover_order 1 7 [c7wA, c7wB]).2.1 c7wA c7wB (by decide) (by decide)

/-! ### Helper lemmas about `sendMsg` and the rotation loops -/

theorem sendMsg_personalRR (outcome : String → Option String) (st : SrvState) (iid : String) :
    (sendMsg outcome st iid).2.personalRR = st.personalRR := by
  unfold sendMsg
  cases h : st.sessions iid with
  | none => rfl
  | some s =>
    dsimp only
    by_cases hc : s.status = "connected"
    · rw [if_pos hc]
      cases ho : outcome iid with
      | none => rfl
      | some msg =>
        dsimp only
        by_cases hb : classifyBanText msg = true
        · rw [if_pos hb]
        · rw [if_neg hb]
    · rw [if_neg hc]

theorem sendMsg_sharedRR (outcome : String → Option String) (st : SrvState) (iid : String) :
    (sendMsg outcome st iid).2.sharedRR = st.sharedRR := by
  unfold sendMsg
  cases h : st.sessions iid with
  | none => rfl
  | some s =>
    dsimp only
    by_cases hc : s.status = "connected"
    · rw [if_pos hc]
      cases ho : outcome iid with
      | none => rfl
      | some msg =>
        dsimp only
        by_cases hb : classifyBanText msg = true
        · rw [if_pos hb]
        · rw [if_neg hb]
    · rw [if_neg hc]

/-- When the protocol send resolves, `sendMsg` reports success and leaves the
state untouched. -/
theorem sendMsg_of_resolved (outcome : String → Option String) (st : SrvState) (iid : String)
    (s : Session) (hs : st.sessions iid = some s) (hc : s.status = "connected")
    (ho : outcome iid = none) :
    sendMsg outcome st iid = (⟨true, false⟩, st) := by
  unfold sendMsg
  rw [hs]
  dsimp only
  rw [if_pos hc, ho]

/-- If every rotation attempt of `sendWithRotation`'s loop fails or is
skipped, neither round-robin tracker changes. -/
theorem personalAttempts_fail_cursors (outcome : String → Option String) (today : Nat)
    (uId : String) (instL : List Row) (startIndex : Nat) :
    ∀ fuel attempts st,
      (personalAttempts outcome today uId instL startIndex attempts fuel st).1.success
          = false →
      (personalAttempts outcome today uId instL startIndex attempts fuel st).2.personalRR
          = st.personalRR ∧
      (personalAttempts outcome today uId instL startIndex attempts fuel st).2.sharedRR
          = st.sharedRR
  | 0, attempts, st => fun _ => ⟨rfl, rfl⟩
  | fuel + 1, attempts, st => by
    intro h
    rw [personalAttempts] at h ⊢
    cases hidx : instL[(startIndex + attempts) % instL.length]? with
    | none => exact ⟨rfl, rfl⟩
    | some inst =>
      rw [hidx] at h
      dsimp only at h ⊢
      cases hsess : st.sessions inst.instance_id with
      | none =>
        rw [hsess] at h
        exact personalAttempts_fail_cursors outcome today uId instL startIndex fuel
          (attempts + 1) st h
      | some s =>
        rw [hsess] at h
        dsimp only at h ⊢
        by_cases hc : s.status = "connected"
        · rw [if_pos hc] at h ⊢
          by_cases hsend : (sendMsg outcome st inst.instance_id).1.success = true
          · rw [if_pos hsend] at h
            exact absurd h (by simp)
          · rw [if_neg hsend] at h ⊢
            have hrec := personalAttempts_fail_cursors outcome today uId instL startIndex fuel
              (attempts + 1) (sendMsg outcome st inst.instance_id).2 h
            rw [hrec.1, hrec.2, sendMsg_personalRR, sendMsg_sharedRR]
            exact ⟨rfl, rfl⟩
        · rw [if_neg hc] at h ⊢
          exact personalAttempts_fail_cursors outcome today uId instL startIndex fuel
            (attempts + 1) st h

/-- If `sendWithRotation`'s loop succeeds, the result is built from the
winning candidate `inst` at list position `(startIndex + attempts + k) % total`
(for the successful attempt number `attempts + k`), the per-user cursor moves
to the position after the winner modulo the candidate count, every other
user's cursor is untouched and the shared cursor is untouched. -/
theorem personalAttempts_success (outcome : String → Option String) (today : Nat)
    (uId : String) (instL : List Row) (startIndex : Nat) :
    ∀ fuel attempts st,
      (personalAttempts outcome today uId instL startIndex attempts fuel st).1.success
          = true →
      ∃ k inst, instL[(startIndex + (attempts + k)) % instL.length]? = some inst ∧
        (personalAttempts outcome today uId instL startIndex attempts fuel st).1
          = { success := true, all_exhausted := false
              instance_id := some inst.instance_id
              instance_db_id := some inst.id
              phone_number := inst.phone_number
              messages_sent_today := some (inst.messages_sent_today + 1)
              daily_limit := some inst.daily_message_limit
              rotated := some (decide (1 < instL.length)) } ∧
        (personalAttempts outcome today uId instL startIndex attempts fuel st).2.personalRR
          = (fun v => if v = uId
              then ((startIndex + (attempts + k)) % instL.length + 1) % instL.length
              else st.personalRR v) ∧
        (personalAttempts outcome today uId instL startIndex attempts fuel st).2.sharedRR
          = st.sharedRR
  | 0, attempts, st => by
    intro h
    rw [personalAttempts] at h
    exact absurd h (by simp)
  | fuel + 1, attempts, st => by
    intro h
    rw [personalAttempts] at h ⊢
    cases hidx : instL[(startIndex + attempts) % instL.length]? with
    | none =>
      rw [hidx] at h
      exact absurd h (by simp)
    | some inst =>
      rw [hidx] at h
      dsimp only at h ⊢
      cases hsess : st.sessions inst.instance_id with
      | none =>
        rw [hsess] at h
        obtain ⟨k, inst2, hk⟩ := personalAttempts_success outcome today uId instL startIndex
          fuel (attempts + 1) st h
        refine ⟨k + 1, inst2, ?_⟩
        have harith : startIndex + (attempts + (k + 1)) = startIndex + (attempts + 1 + k) := by
          omega
        rw [harith]
        exact hk
      | some s =>
        rw [hsess] at h
        dsimp only at h ⊢
        by_cases hc : s.status = "connected"
        · rw [if_pos hc] at h ⊢
          by_cases hsend : (sendMsg outcome st inst.instance_id).1.success = true
          · rw [if_pos hsend] at h ⊢
            refine ⟨0, inst, ?_, rfl, ?_, ?_⟩
            · rw [Nat.add_zero]; exact hidx
            · funext v
              dsimp only
              by_cases hv : v = uId
              · rw [if_pos hv, if_pos hv]
                simp
              · rw [if_neg hv, if_neg hv, sendMsg_personalRR]
            · dsimp only
              rw [sendMsg_sharedRR]
          · rw [if_neg hsend] at h ⊢
            obtain ⟨k, inst2, hk1, hk2, hk3, hk4⟩ := personalAttempts_success outcome today
              uId instL startIndex fuel (attempts + 1)
              (sendMsg outcome st inst.instance_id).2 h
            refine ⟨k + 1, inst2, ?_, ?_, ?_, ?_⟩
            · have harith : startIndex + (attempts + (k + 1)) = startIndex + (attempts + 1 + k) := by
                omega
              rw [harith]; exact hk1
            · exact hk2
            · have harith : startIndex + (attempts + (k + 1)) = startIndex + (attempts + 1 + k) := by
                omega
              rw [harith, hk3, sendMsg_personalRR]
            · rw [hk4, sendMsg_sharedRR]
        · rw [if_neg hc] at h ⊢
          obtain ⟨k, inst2, hk1, hk2, hk3, hk4⟩ := personalAttempts_success outcome today uId
            instL startIndex fuel (attempts + 1) st h
          refine ⟨k + 1, inst2, ?_, ?_, ?_, ?_⟩
          · have harith : startIndex + (attempts + (k + 1)) = startIndex + (attempts + 1 + k) := by
              omega
            rw [harith]; exact hk1
          · exact hk2
          · have harith : startIndex + (attempts + (k + 1)) = startIndex + (attempts + 1 + k) := by
              omega
            rw [harith]; exact hk3
          · exact hk4

/-- If every attempt of `sendWithSharedRotation`'s loop fails or is skipped,
neither round-robin tracker changes. -/
theorem sharedAttempts_fail_cursors (outcome : String → Option String) (today : Nat)
    (instL : List Row) (startIndex : Nat) :
    ∀ fuel attempts st,
      (sharedAttempts outcome today instL startIndex attempts fuel st).1.success = false →
      (sharedAttempts outcome today instL startIndex attempts fuel st).2.sharedRR
          = st.sharedRR ∧
      (sharedAttempts outcome today instL startIndex attempts fuel st).2.personalRR
          = st.personalRR
  | 0, attempts, st => fun _ => ⟨rfl, rfl⟩
  | fuel + 1, attempts, st => by
    intro h
    rw [sharedAttempts] at h ⊢
    cases hidx : instL[(startIndex + attempts) % instL.length]? with
    | none => exact ⟨rfl, rfl⟩
    | some inst =>
      rw [hidx] at h
      dsimp only at h ⊢
      cases hsess : st.sessions inst.instance_id with
      | none =>
        rw [hsess] at h
        exact sharedAttempts_fail_cursors outcome today instL startIndex fuel
          (attempts + 1) st h
      | some s =>
        rw [hsess] at h
        dsimp only at h ⊢
        by_cases hc : s.status = "connected"
        · rw [if_pos hc] at h ⊢
          by_cases hsend : (sendMsg outcome st inst.instance_id).1.success = true
          · rw [if_pos hsend] at h
            exact absurd h (by simp)
          · rw [if_neg hsend] at h ⊢
            have hrec := sharedAttempts_fail_cursors outcome today instL startIndex fuel
              (attempts + 1) (sendMsg outcome st inst.instance_id).2 h
            rw [hrec.1, hrec.2, sendMsg_personalRR, sendMsg_sharedRR]
            exact ⟨rfl, rfl⟩
        · rw [if_neg hc] at h ⊢
          exact sharedAttempts_fail_cursors outcome today instL startIndex fuel
            (attempts + 1) st h

/-- If `sendWithSharedRotation`'s loop succeeds, the result carries only
`instance_id` / `instance_db_id` / `phone_number` of the winning candidate,
the shared cursor moves to the position after the winner modulo the candidate
count, and the per-user cursors are untouched. -/
theorem sharedAttempts_success (outcome : String → Option String) (today : Nat)
    (instL : List Row) (startIndex : Nat) :
    ∀ fuel attempts st,
      (sharedAttempts outcome today instL startIndex attempts fuel st).1.success = true →
      ∃ k inst, instL[(startIndex + (attempts + k)) % instL.length]? = some inst ∧
        (sharedAttempts outcome today instL startIndex attempts fuel st).1
          = { success := true, all_exhausted := false
              instance_id := some inst.instance_id
              instance_db_id := some inst.id
              phone_number := inst.phone_number } ∧
        (sharedAttempts outcome today instL startIndex attempts fuel st).2.sharedRR
          = ((startIndex + (attempts + k)) % instL.length + 1) % instL.length ∧
        (sharedAttempts outcome today instL startIndex attempts fuel st).2.personalRR
          = st.personalRR
  | 0, attempts, st => by
    intro h
    rw [sharedAttempts] at h
    exact absurd h (by simp)
  | fuel + 1, attempts, st => by
    intro h
    rw [sharedAttempts] at h ⊢
    cases hidx : instL[(startIndex + attempts) % instL.length]? with
    | none =>
      rw [hidx] at h
      exact absurd h (by simp)
    | some inst =>
      rw [hidx] at h
      dsimp only at h ⊢
      cases hsess : st.sessions inst.instance_id with
      | none =>
        rw [hsess] at h
        obtain ⟨k, inst2, hk⟩ := sharedAttempts_success outcome today instL startIndex
          fuel (attempts + 1) st h
        refine ⟨k + 1, inst2, ?_⟩
        have harith : startIndex + (attempts + (k + 1)) = startIndex + (attempts + 1 + k) := by
          omega
        rw [harith]
        exact hk
      | some s =>
        rw [hsess] at h
        dsimp only at h ⊢
        by_cases hc : s.status = "connected"
        · rw [if_pos hc] at h ⊢
          by_cases hsend : (sendMsg outcome st inst.instance_id).1.success = true
          · rw [if_pos hsend] at h ⊢
            refine ⟨0, inst, ?_, rfl, ?_, ?_⟩
            · rw [Nat.add_zero]; exact hidx
            · dsimp only
              simp
            · dsimp only
              rw [sendMsg_personalRR]
          · rw [if_neg hsend] at h ⊢
            obtain ⟨k, inst2, hk1, hk2, hk3, hk4⟩ := sharedAttempts_success outcome today
              instL startIndex fuel (attempts + 1)
              (sendMsg outcome st inst.instance_id).2 h
            refine ⟨k + 1, inst2, ?_, ?_, ?_, ?_⟩
            · have harith : startIndex + (attempts + (k + 1)) = startIndex + (attempts + 1 + k) := by
                omega
              rw [harith]; exact hk1
            · exact hk2
            · have harith : startIndex + (attempts + (k + 1)) = startIndex + (attempts + 1 + k) := by
                omega
              rw [harith]; exact hk3
            · rw [hk4, sendMsg_personalRR]
        · rw [if_neg hc] at h ⊢
          obtain ⟨k, inst2, hk1, hk2, hk3, hk4⟩ := sharedAttempts_success outcome today instL
            startIndex fuel (attempts + 1) st h
          refine ⟨k + 1, inst2, ?_, ?_, ?_, ?_⟩
          · have harith : startIndex + (attempts + (k + 1)) = startIndex + (attempts + 1 + k) := by
              omega
            rw [harith]; exact hk1
          · exact hk2
          · have harith : startIndex + (attempts + (k + 1)) = startIndex + (attempts + 1 + k) := by
              omega
            rw [harith]; exact hk3
          · exact hk4

/-! ### C4 -/

/-- C4: for every rotation scope (each owning user's cursor and the single
shared-pool cursor), the cursor changes only on a rotation request that ends
in a successful send, where it becomes the position after the winning
candidate modulo the candidate count; on a request where every attempt fails
or is skipped (including the no-candidate early return), all cursors are
unchanged; a personal request never touches other users' cursors or the
shared cursor, and a shared request never touches the personal cursors. -/
theorem c4_rotation_cursor_invariant (outcome : String → Option String) (today userId : Nat)
    (st : SrvState) :
    ((sendWithRotation outcome today userId st).1.success = false →
      (sendWithRotation outcome today userId st).2.personalRR = st.personalRR ∧
      (sendWithRotation outcome today userId st).2.sharedRR = st.sharedRR) ∧
    ((sendWithRotation outcome today userId st).1.success = true →
      ∃ i inst, (getAvailableInstances today userId st.table)[i]? = some inst ∧
        (sendWithRotation outcome today userId st).1.instance_id = some inst.instance_id ∧
        (sendWithRotation outcome today userId st).2.personalRR (toString userId)
          = (i + 1) % (getAvailableInstances today userId st.table).length ∧
        (∀ v, v ≠ toString userId →
          (sendWithRotation outcome today userId st).2.personalRR v = st.personalRR v) ∧
        (sendWithRotation outcome today userId st).2.sharedRR = st.sharedRR) ∧
    ((sendWithSharedRotation outcome today st).1.success = false →
      (sendWithSharedRotation outcome today st).2.sharedRR = st.sharedRR ∧
      (sendWithSharedRotation outcome today st).2.personalRR = st.personalRR) ∧
    ((sendWithSharedRotation outcome today st).1.success = true →
      ∃ i inst, (getAvailableSharedInstances today st.table)[i]? = some inst ∧
        (sendWithSharedRotation outcome today st).1.instance_id = some inst.instance_id ∧
        (sendWithSharedRotation outcome today st).2.sharedRR
          = (i + 1) % (getAvailableSharedInstances today st.table).length ∧
        (sendWithSharedRotation outcome today st).2.personalRR = st.personalRR) := by
  refine ⟨?_, ?_, ?_, ?_⟩
  · intro h
    unfold sendWithRotation at h ⊢
    by_cases hz : (getAvailableInstances today userId st.table).length = 0
    · rw [if_pos hz] at h ⊢
      exact ⟨rfl, rfl⟩
    · rw [if_neg hz] at h ⊢
      exact personalAttempts_fail_cursors outcome today (toString userId)
        (getAvailableInstances today userId st.table) (st.personalRR (toString userId))
        (getAvailableInstances today userId st.table).length 0 st h
  · intro h
    unfold sendWithRotation at h ⊢
    by_cases hz : (getAvailableInstances today userId st.table).length = 0
    · rw [if_pos hz] at h
      exact absurd h (by simp)
    · rw [if_neg hz] at h ⊢
      obtain ⟨k, inst, hk1, hk2, hk3, hk4⟩ := personalAttempts_success outcome today
        (toString userId) (getAvailableInstances today userId st.table)
        (st.personalRR (toString userId)) (getAvailableInstances today userId st.table).length
        0 st h
      refine ⟨(st.personalRR (toString userId) + (0 + k)) %
          (getAvailableInstances today userId st.table).length, inst, hk1, ?_, ?_, ?_, hk4⟩
      · rw [hk2]
      · rw [hk3]; simp
      · intro v hv; rw [hk3]; simp [hv]
  · intro h
    unfold sendWithSharedRotation at h ⊢
    by_cases hz : (getAvailableSharedInstances today st.table).length = 0
    · rw [if_pos hz] at h ⊢
      exact ⟨rfl, rfl⟩
    · rw [if_neg hz] at h ⊢
      exact sharedAttempts_fail_cursors outcome today
        (getAvailableSharedInstances today st.table) st.sharedRR
        (getAvailableSharedInstances today st.table).length 0 st h
  · intro h
    unfold sendWithSharedRotation at h ⊢
    by_cases hz : (getAvailableSharedInstances today st.table).length = 0
    · rw [if_pos hz] at h
      exact absurd h (by simp)
    · rw [if_neg hz] at h ⊢
      obtain ⟨k, inst, hk1, hk2, hk3, hk4⟩ := sharedAttempts_success outcome today
        (getAvailableSharedInstances today st.table) st.sharedRR
        (getAvailableSharedInstances today st.table).length 0 st h
      refine ⟨(st.sharedRR + (0 + k)) % (getAvailableSharedInstances today st.table).length,
        inst, hk1, ?_, hk3, hk4⟩
      rw [hk2]

/-- An empty server state: no rows, no sessions, cursors at 0. -/
def emptyState : SrvState :=
  { table := [], sessions := fun _ => none, personalRR := fun _ => 0, sharedRR := 0 }

/-- A server state whose single (shared, connected) instance `"w1"` has a live
connected session. -/
def liveSharedState : SrvState :=
  { table := [wRow]
    sessions := fun j => if j = "w1" then some cSession else none
    personalRR := fun _ => 0
    sharedRR := 0 }

theorem c4_rotation_cursor_invariant_witness :
    ((sendWithRotation (fun _ => none) 5 7 emptyState).2.personalRR = emptyState.personalRR ∧
      (sendWithRotation (fun _ => none) 5 7 emptyState).2.sharedRR = emptyState.sharedRR) ∧
    (∃ i inst, (getAvailableSharedInstances 5 liveSharedState.table)[i]? = some inst ∧
      (sendWithSharedRotation (fun _ => none) 5 liveSharedState).1.instance_id
        = some inst.instance_id ∧
      (sendWithSharedRotation (fun _ => none) 5 liveSharedState).2.sharedRR
        = (i + 1) % (getAvailableSharedInstances 5 liveSharedState.table).length ∧
      (sendWithSharedRotation (fun _ => none) 5 liveSharedState).2.personalRR
        = liveSharedState.personalRR) :=
  ⟨(c4_rotation_cursor_invariant (fun _ => none) 5 7 emptyState).1 rfl,
    (c4_rotation_cursor_invariant (fun _ => none) 5 7 liveSharedState).2.2.2 (by decide)⟩

/-! ### C8 -/

/-- If `rotationEngine.js`'s failover loop succeeds, the result is built from
the winning candidate, with `rotated` comparing that winner against
`instances[0]`. -/
theorem failoverLoop_success (outcome : String → Option String) (today : Nat)
    (firstId : String) :
    ∀ (L : List Row) (st : SrvState),
      (Engine.failoverLoop outcome today firstId L st).1.success = true →
      ∃ inst ∈ L,
        (Engine.failoverLoop outcome today firstId L st).1
          = { success := true, all_exhausted := false
              instance_id := some inst.instance_id
              instance_db_id := some inst.id
              phone_number := inst.phone_number
              messages_sent_today := some (inst.messages_sent_today + 1)
              daily_limit := some inst.daily_message_limit
              rotated := some (firstId != inst.instance_id) }
  | [], st => by
    intro h
    rw [Engine.failoverLoop] at h
    exact absurd h (by simp)
  | inst :: rest, st => by
    intro h
    rw [Engine.failoverLoop] at h ⊢
    cases hsess : st.sessions inst.instance_id with
    | none =>
      rw [hsess] at h
      obtain ⟨i2, hi2, hres⟩ := failoverLoop_success outcome today firstId rest _ h
      exact ⟨i2, List.mem_cons_of_mem _ hi2, hres⟩
    | some s =>
      rw [hsess] at h
      dsimp only at h ⊢
      by_cases hc : s.status = "connected"
      · rw [if_pos hc] at h ⊢
        by_cases hsend : (sendMsg outcome st inst.instance_id).1.success = true
        · rw [if_pos hsend] at h ⊢
          exact ⟨inst, List.mem_cons_self _ _, rfl⟩
        · rw [if_neg hsend] at h ⊢
          obtain ⟨i2, hi2, hres⟩ := failoverLoop_success outcome today firstId rest _ h
          exact ⟨i2, List.mem_cons_of_mem _ hi2, hres⟩
      · rw [if_neg hc] at h ⊢
        obtain ⟨i2, hi2, hres⟩ := failoverLoop_success outcome today firstId rest _ h
        exact ⟨i2, List.mem_cons_of_mem _ hi2, hres⟩

/-- C8 counterexample: a successful `server.js` shared-rotation send returns a
result with no `daily_limit`, no `messages_sent_today` and no `rotated` field,
contradicting the claim that every successful rotation result carries the
post-increment usage, the limit and the rotated flag. -/
theorem c8_counterexample :
    (sendWithSharedRotation (fun _ => none) 5 liveSharedState).1.success = true ∧
    (sendWithSharedRotation (fun _ => none) 5 liveSharedState).1.daily_limit = none ∧
    (sendWithSharedRotation (fun _ => none) 5 liveSharedState).1.messages_sent_today = none ∧
    (sendWithSharedRotation (fun _ => none) 5 liveSharedState).1.rotated = none := by
  decide

/-- C8 (amended): on success, `rotationEngine.js`'s owner-scoped policy
returns the winner's instance id, phone number, post-increment usage and
limit, with `rotated` true iff the winner differs from the first (most
preferred) candidate; `server.js`'s owner-scoped policy returns the same
fields but computes `rotated` as "candidate count > 1" (true even when the
first candidate wins); the `server.js` shared policy returns only the
winner's identifiers and phone number, omitting usage, limit and the rotated
flag. -/
theorem c8_success_result_fields (outcome : String → Option String) (today userId : Nat)
    (st : SrvState) :
    ((Engine.sendWithRotation outcome today userId st).1.success = true →
      ∃ first rest inst, getAvailableInstances today userId st.table = first :: rest ∧
        inst ∈ first :: rest ∧
        (Engine.sendWithRotation outcome today userId st).1
          = { success := true, all_exhausted := false
              instance_id := some inst.instance_id
              instance_db_id := some inst.id
              phone_number := inst.phone_number
              messages_sent_today := some (inst.messages_sent_today + 1)
              daily_limit := some inst.daily_message_limit
              rotated := some (first.instance_id != inst.instance_id) }) ∧
    ((sendWithRotation outcome today userId st).1.success = true →
      ∃ (i : Nat) (inst : Row), (getAvailableInstances today userId st.table)[i]? = some inst ∧
        (sendWithRotation outcome today userId st).1
          = { success := true, all_exhausted := false
              instance_id := some inst.instance_id
              instance_db_id := some inst.id
              phone_number := inst.phone_number
              messages_sent_today := some (inst.messages_sent_today + 1)
              daily_limit := some inst.daily_message_limit
              rotated := some (decide
                (1 < (getAvailableInstances today userId st.table).length)) }) ∧
    ((sendWithSharedRotation outcome today st).1.success = true →
      (sendWithSharedRotation outcome today st).1.messages_sent_today = none ∧
      (sendWithSharedRotation outcome today st).1.daily_limit = none ∧
      (sendWithSharedRotation outcome today st).1.rotated = none ∧
      ∃ (i : Nat) (inst : Row), (getAvailableSharedInstances today st.table)[i]? = some inst ∧
        (sendWithSharedRotation outcome today st).1.instance_id = some inst.instance_id ∧
        (sendWithSharedRotation outcome today st).1.phone_number = inst.phone_number) := by
  refine ⟨?_, ?_, ?_⟩
  · intro h
    unfold Engine.sendWithRotation at h ⊢
    cases hL : getAvailableInstances today userId st.table with
    | nil =>
      rw [hL] at h
      exact absurd h (by simp)
    | cons first rest =>
      rw [hL] at h
      dsimp only at h ⊢
      obtain ⟨inst, hi, hres⟩ := failoverLoop_success outcome today first.instance_id
        (first :: rest) st h
      exact ⟨first, rest, inst, rfl, hi, hres⟩
  · intro h
    unfold sendWithRotation at h ⊢
    by_cases hz : (getAvailableInstances today userId st.table).length = 0
    · rw [if_pos hz] at h
      exact absurd h (by simp)
    · rw [if_neg hz] at h ⊢
      obtain ⟨k, inst, hk1, hk2, _, _⟩ := personalAttempts_success outcome today
        (toString userId) (getAvailableInstances today userId st.table)
        (st.personalRR (toString userId)) (getAvailableInstances today userId st.table).length
        0 st h
      exact ⟨(st.personalRR (toString userId) + (0 + k)) %
          (getAvailableInstances today userId st.table).length, inst, hk1, hk2⟩
  · intro h
    unfold sendWithSharedRotation at h ⊢
    by_cases hz : (getAvailableSharedInstances today st.table).length = 0
    · rw [if_pos hz] at h
      exact absurd h (by simp)
    · rw [if_neg hz] at h ⊢
      obtain ⟨k, inst, hk1, hk2, _, _⟩ := sharedAttempts_success outcome today
        (getAvailableSharedInstances today st.table) st.sharedRR
        (getAvailableSharedInstances today st.table).length 0 st h
      rw [hk2]
      exact ⟨rfl, rfl, rfl,
        (st.sharedRR + (0 + k)) % (getAvailableSharedInstances today st.table).length,
        inst, hk1, rfl, rfl⟩

theorem c8_success_result_fields_witness :
    ∃ first rest inst, getAvailableInstances 5 7 liveSharedState.table = first :: rest ∧
      inst ∈ first :: rest ∧
      (Engine.sendWithRotation (fun _ => none) 5 7 liveSharedState).1
        = { success := true, all_exhausted := false
            instance_id := some inst.instance_id
            instance_db_id := some inst.id
            phone_number := inst.phone_number
            messages_sent_today := some (inst.messages_sent_today + 1)
            daily_limit := some inst.daily_message_limit
            rotated := some (first.instance_id != inst.instance_id) } :=
  (c8_success_result_fields (fun _ => none) 5 7 liveSharedState).1 (by decide)

/-! ### C3 -/

/-- The rotation loops' liveness check: the registry holds a session with
status `connected` for the given instance id. -/
def connectedIn (reg : Registry) (iid : String) : Prop :=
  match reg iid with
  | some s => s.status = "connected"
  | none => False

instance (reg : Registry) (iid : String) : Decidable (connectedIn reg iid) := by
  unfold connectedIn
  cases reg iid with
  | none => exact isFalse (fun h => h)
  | some s => exact inferInstanceAs (Decidable (s.status = "connected"))

theorem connectedIn_iff (reg : Registry) (iid : String) :
    connectedIn reg iid ↔ ∃ s, reg iid = some s ∧ s.status = "connected" := by
  unfold connectedIn
  cases h : reg iid with
  | none => simp
  | some s => simp

/-- One successful step of the shared loop: with a candidate at the current
rotation position whose session is connected and whose protocol send
resolves, the loop returns that winner and advances the shared cursor. -/
theorem sharedAttempts_step_success (outcome : String → Option String) (today : Nat)
    (instL : List Row) (startIndex attempts fuel : Nat) (st : SrvState) (inst : Row)
    (s : Session) (hfuel : fuel ≠ 0)
    (hidx : instL[(startIndex + attempts) % instL.length]? = some inst)
    (hs : st.sessions inst.instance_id = some s) (hcs : s.status = "connected")
    (ho : outcome inst.instance_id = none) :
    sharedAttempts outcome today instL startIndex attempts fuel st
      = ({ success := true, all_exhausted := false
           instance_id := some inst.instance_id
           instance_db_id := some inst.id
           phone_number := inst.phone_number },
         { st with table := incrementMessageCount today inst.instance_id st.table
                   sharedRR := ((startIndex + attempts) % instL.length + 1) % instL.length }) := by
  obtain ⟨m, rfl⟩ := Nat.exists_eq_succ_of_ne_zero hfuel
  rw [sharedAttempts, hidx]
  dsimp only
  rw [hs]
  dsimp only
  rw [if_pos hcs, sendMsg_of_resolved outcome st inst.instance_id s hs hcs ho]
  rfl

/-- One shared-rotation request in an all-live scenario: it picks the
candidate at position `cursor % N`, increments that instance's counter and
advances the cursor. -/
theorem sendWithSharedRotation_live (outcome : String → Option String) (today : Nat)
    (st : SrvState) (L : List Row) (hL : getAvailableSharedInstances today st.table = L)
    (hne : L ≠ []) (ho : ∀ x, outcome x = none)
    (hconn : ∀ inst ∈ L, connectedIn st.sessions inst.instance_id) :
    ∃ inst, L[st.sharedRR % L.length]? = some inst ∧
      sendWithSharedRotation outcome today st
        = ({ success := true, all_exhausted := false
             instance_id := some inst.instance_id
             instance_db_id := some inst.id
             phone_number := inst.phone_number },
           { st with table := incrementMessageCount today inst.instance_id st.table
                     sharedRR := (st.sharedRR % L.length + 1) % L.length }) := by
  have hpos : 0 < L.length := List.length_pos.2 hne
  have hidxlt : st.sharedRR % L.length < L.length := Nat.mod_lt _ hpos
  have hidx0 : L[st.sharedRR % L.length]? = some L[st.sharedRR % L.length] :=
    List.getElem?_eq_getElem hidxlt
  obtain ⟨s, hs, hcs⟩ := (connectedIn_iff _ _).1
    (hconn L[st.sharedRR % L.length] (L.getElem_mem hidxlt))
  refine ⟨L[st.sharedRR % L.length], hidx0, ?_⟩
  unfold sendWithSharedRotation
  rw [hL]
  dsimp only
  rw [if_neg (by omega : ¬ L.length = 0)]
  have hstep := sharedAttempts_step_success outcome today L st.sharedRR 0 L.length st
    L[st.sharedRR % L.length] s (by omega)
    (by rw [Nat.add_zero]; exact hidx0) hs hcs (ho _)
  rw [hstep]
  simp

/-- Iterating shared-rotation requests while the *instance-id sequence* of
the recomputed candidate list stays equal to one fixed sequence `ids` (the
rows' counters change with every send, their identities and order need not)
and every candidate stays live: the registry is unchanged, the cursor
advances by one position per request, and request `k` picks the candidate id
at position `(cursor₀ + k) % N`. -/
theorem sharedRun_fairness (outcome : String → Option String) (today : Nat)
    (ids : List String) (hne : ids ≠ []) (ho : ∀ x, outcome x = none) :
    ∀ n st,
      (∀ k, k < n →
        ((getAvailableSharedInstances today
            ((sharedRun outcome today k st).1).table).map Row.instance_id) = ids) →
      (∀ iid ∈ ids, connectedIn st.sessions iid) →
      (sharedRun outcome today n st).1.sessions = st.sessions ∧
      (sharedRun outcome today n st).1.sharedRR
        = (if n = 0 then st.sharedRR else (st.sharedRR + n) % ids.length) ∧
      (sharedRun outcome today n st).2
        = (List.range n).map (fun k => ids[(st.sharedRR + k) % ids.length]?)
  | 0, st => fun _ _ => ⟨rfl, by rw [if_pos rfl]; rfl, rfl⟩
  | n + 1, st => by
    intro hlist hconn
    have h0 : (getAvailableSharedInstances today st.table).map Row.instance_id = ids :=
      hlist 0 (by omega)
    have hlen : (getAvailableSharedInstances today st.table).length = ids.length := by
      rw [← h0, List.length_map]
    have hneL : getAvailableSharedInstances today st.table ≠ [] := by
      intro hnil
      rw [hnil] at h0
      exact hne h0.symm
    have hconnL : ∀ inst ∈ getAvailableSharedInstances today st.table,
        connectedIn st.sessions inst.instance_id := by
      intro inst hi
      exact hconn _ (h0 ▸ List.mem_map_of_mem Row.instance_id hi)
    obtain ⟨inst, hidx, heq⟩ := sendWithSharedRotation_live outcome today st
      (getAvailableSharedInstances today st.table) rfl hneL ho hconnL
    have hhead : ids[st.sharedRR % ids.length]? = some inst.instance_id := by
      rw [← hlen, ← h0, List.getElem?_map, hidx]
      rfl
    have hsess1 : (sendWithSharedRotation outcome today st).2.sessions = st.sessions := by
      rw [heq]
    have hcursor1 : (sendWithSharedRotation outcome today st).2.sharedRR
        = (st.sharedRR % ids.length + 1) % ids.length := by
      rw [heq]
      dsimp only
      rw [hlen]
    have hconn1 : ∀ iid ∈ ids,
        connectedIn (sendWithSharedRotation outcome today st).2.sessions iid := by
      intro iid hi
      rw [hsess1]
      exact hconn iid hi
    have hlist1 : ∀ k, k < n →
        ((getAvailableSharedInstances today
            ((sharedRun outcome today k
              (sendWithSharedRotation outcome today st).2).1).table).map Row.instance_id)
          = ids :=
      fun k hk => hlist (k + 1) (by omega)
    obtain ⟨ih1, ih2, ih3⟩ := sharedRun_fairness outcome today ids hne ho n
      (sendWithSharedRotation outcome today st).2 hlist1 hconn1
    refine ⟨ih1.trans hsess1, ?_, ?_⟩
    · have h2 : (sharedRun outcome today (n + 1) st).1.sharedRR
          = (if n = 0 then (sendWithSharedRotation outcome today st).2.sharedRR
             else ((sendWithSharedRotation outcome today st).2.sharedRR + n) % ids.length) :=
        ih2
      rw [h2, hcursor1]
      by_cases hn : n = 0
      · subst hn
        rw [if_pos rfl, if_neg (by omega : ¬ (0 : Nat) + 1 = 0)]
        exact Nat.mod_add_mod _ _ _
      · rw [if_neg hn, if_neg (by omega : ¬ n + 1 = 0), Nat.mod_add_mod]
        have harith : st.sharedRR % ids.length + 1 + n
            = st.sharedRR % ids.length + (n + 1) := by
          omega
        rw [harith, Nat.mod_add_mod]
    · have h3 : (sharedRun outcome today (n + 1) st).2
          = (sendWithSharedRotation outcome today st).1.instance_id ::
            (List.range n).map
              (fun k =>
                ids[((sendWithSharedRotation outcome today st).2.sharedRR + k) % ids.length]?) :=
        congrArg (List.cons (sendWithSharedRotation outcome today st).1.instance_id) ih3
      rw [h3, hcursor1, heq]
      dsimp only
      rw [List.range_succ_eq_map, List.map_cons, List.map_map]
      congr 1
      · rw [Nat.add_zero, ← hhead]
      · refine List.map_congr_left ?_
        intro k hk
        simp only [Function.comp]
        have harith : ((st.sharedRR % ids.length + 1) % ids.length + k) % ids.length
            = (st.sharedRR + (k + 1)) % ids.length := by
          rw [Nat.mod_add_mod]
          have h4 : st.sharedRR % ids.length + 1 + k
              = st.sharedRR % ids.length + (k + 1) := by
            omega
          rw [h4, Nat.mod_add_mod]
        rw [harith]

/-- A shared, connected, under-quota row with counter 0. -/
def c3xA : Row :=
  { id := 1, user_id := 0, instance_id := "a", phone_number := some "1"
    status := "connected", is_banned := false, is_company_shared := true
    daily_message_limit := 100, messages_sent_today := 0, last_reset_date := some 1
    priority := 1 }

def c3xB : Row :=
  { c3xA with id := 2, instance_id := "b", phone_number := some "2" }

def c3xC : Row :=
  { c3xA with id := 3, instance_id := "c", phone_number := some "3" }

/-- Three live shared instances with equal counters, shared cursor 0. -/
def c3xState : SrvState :=
  { table := [c3xA, c3xB, c3xC]
    sessions := fun j => if j = "a" ∨ j = "b" ∨ j = "c" then some cSession else none
    personalRR := fun _ => 0
    sharedRR := 0 }

/-- C3 counterexample: three live, under-quota shared candidates `a`, `b`, `c`
and three consecutive successful shared sends (every session is connected and
every protocol send resolves).  Because `getAvailableSharedInstances` re-sorts
by the updated usage counters on every request, the three sends pick `a`,
then `c`, then `c` again: `c` repeats before `b` is ever chosen, refuting
"each candidate is chosen exactly once before any candidate repeats". -/
theorem c3_counterexample :
    (getAvailableSharedInstances 1 c3xState.table).map Row.instance_id = ["a", "b", "c"] ∧
    (sharedRun (fun _ => none) 1 3 c3xState).2 = [some "a", some "c", some "c"] ∧
    some "b" ∉ (sharedRun (fun _ => none) 1 3 c3xState).2 := by
  decide

/-- C3 (amended): the cursor rotation itself is fair, but only relative to a
fixed candidate ordering.  If across `N + 1` consecutive shared requests every
recomputed candidate list equals one fixed list `L` (`N = L.length`), every
candidate's session is connected and every protocol send resolves, then the
requests succeed and request `k` picks the candidate at position
`(cursor₀ + k) % N`: the first `N` requests visit `N` pairwise-distinct
positions (each candidate exactly once, in cursor order) and the `(N + 1)`-th
request wraps back to the first position.  Without the fixed-list hypothesis
the claim fails, because the list is re-sorted by usage between requests (see
the counterexample). -/
theorem c3_round_robin_fairness (outcome : String → Option String) (today : Nat)
    (ids : List String) (st : SrvState) (hne : ids ≠ []) (ho : ∀ x, outcome x = none)
    (hconn : ∀ iid ∈ ids, connectedIn st.sessions iid)
    (hstable : ∀ k, k ≤ ids.length →
      ((getAvailableSharedInstances today
          ((sharedRun outcome today k st).1).table).map Row.instance_id) = ids) :
    (sharedRun outcome today (ids.length + 1) st).2
      = (List.range (ids.length + 1)).map
          (fun k => ids[(st.sharedRR + k) % ids.length]?) ∧
    ((List.range ids.length).map (fun k => (st.sharedRR + k) % ids.length)).Pairwise Ne ∧
    (st.sharedRR + ids.length) % ids.length = st.sharedRR % ids.length := by
  refine ⟨?_, ?_, Nat.add_mod_right _ _⟩
  · exact (sharedRun_fairness outcome today ids hne ho (ids.length + 1) st
      (fun k hk => hstable k (by omega)) hconn).2.2
  · have hdist : ∀ i j : Nat, i < j → j < ids.length →
        (st.sharedRR + i) % ids.length ≠ (st.sharedRR + j) % ids.length := by
      intro i j hij hj h
      have hmod : st.sharedRR + i ≡ st.sharedRR + j [MOD ids.length] := h
      have hdvd : ids.length ∣ st.sharedRR + j - (st.sharedRR + i) :=
        (Nat.modEq_iff_dvd' (by omega)).1 hmod
      have hsub : st.sharedRR + j - (st.sharedRR + i) = j - i := by omega
      rw [hsub] at hdvd
      have := Nat.le_of_dvd (by omega) hdvd
      omega
    rw [List.pairwise_iff_getElem]
    intro i j hi hj hij
    simp only [List.getElem_map, List.getElem_range, List.length_map,
      List.length_range] at hi hj ⊢
    exact hdist i j hij hj

/-- Shared rows with well-spaced counters (0 / 10 / 20), so that incrementing
a winner never reorders the usage-sorted candidate list. -/
def c3wA : Row :=
  { id := 11, user_id := 0, instance_id := "ra", phone_number := some "11"
    status := "connected", is_banned := false, is_company_shared := true
    daily_message_limit := 100, messages_sent_today := 0, last_reset_date := some 1
    priority := 1 }

def c3wB : Row :=
  { c3wA with
    id := 12
    instance_id := "rb"
    phone_number := some "12"
    messages_sent_today := 10 }

def c3wC : Row :=
  { c3wA with
    id := 13
    instance_id := "rc"
    phone_number := some "13"
    messages_sent_today := 20 }

def c3wState : SrvState :=
  { table := [c3wA, c3wB, c3wC]
    sessions := fun j => if j = "ra" ∨ j = "rb" ∨ j = "rc" then some cSession else none
    personalRR := fun _ => 0
    sharedRR := 0 }

theorem c3_round_robin_fairness_witness :
    (sharedRun (fun _ => none) 1 (["ra", "rb", "rc"].length + 1) c3wState).2
      = (List.range (["ra", "rb", "rc"].length + 1)).map
          (fun k => ["ra", "rb", "rc"][(c3wState.sharedRR + k) %
              (["ra", "rb", "rc"] : List String).length]?) ∧
    ((List.range (["ra", "rb", "rc"] : List String).length).map
        (fun k => (c3wState.sharedRR + k) %
          (["ra", "rb", "rc"] : List String).length)).Pairwise Ne ∧
    (c3wState.sharedRR + (["ra", "rb", "rc"] : List String).length) %
        (["ra", "rb", "rc"] : List String).length
      = c3wState.sharedRR % (["ra", "rb", "rc"] : List String).length :=
  c3_round_robin_fairness (fun _ => none) 1 ["ra", "rb", "rc"]
    c3wState (by decide) (fun _ => rfl) (by decide) (by decide)

end OTPFlow
